import Mathlib

/-!
Shallow embedding of the `eth_mose` repository (src/script.py and
src/unit_converter.py), with theorems settling the frozen claims about its
natural-language specification.

Conventions:
* Python integers become `Nat` (all quantities here are unsigned).
* Byte strings become `List Nat` with each element `< 256`.
* Fallible Python code (functions that raise) becomes `Except`/`Option`.
* External-library behaviour that the source invokes (web3 event decoding,
  urllib3 retry policy, the `decimal` module) is embedded following the
  documented semantics of those libraries, at the call sites the source uses.
-/

namespace EthMose

/-! ### Event decoding (src/script.py, `EventParser`)

`EventParser.parse_tokens_locked_event` calls web3's
`contract.events.TokensLocked().process_log(event_log)` against the ABI
constant `BRIDGE_CONTRACT_ABI`:
`TokensLocked(address indexed token, address indexed sender,
address recipient, uint256 amount, uint256 destinationChainId)`.

web3's `get_event_data` for this (non-anonymous, two indexed fields) event:
* raises `MismatchedABI` when the topic list is empty or `topics[0]` differs
  from the event selector (a keccak hash of the signature, which we cannot
  compute; the selector is therefore a parameter of the model);
* raises `LogTopicError` when the number of remaining topics is not 2;
* decodes the data payload as `(address, uint256, uint256)`: three 32-byte
  big-endian words read from the front of the payload, raising
  `InsufficientDataBytes` when fewer than 96 bytes are present; an address
  is the low 20 bytes (value mod 2^160) of its word.
-/

/-- A raw log entry as delivered by the chain subscription: ordered topics
(32-byte words as numbers), opaque data payload (bytes), transaction hash
(bytes) and block number. -/
structure LogReceipt where
  topics : List Nat
  data : List Nat
  transactionHash : List Nat
  blockNumber : Nat
deriving DecidableEq, Repr

/-- Big-endian interpretation of a byte sequence as an unsigned integer,
as performed by the ABI decoder for a `uint256` word. -/
def decodeWord (bs : List Nat) : Nat :=
  bs.foldl (fun acc b => acc * 256 + b) 0

/-- Big-endian 32-byte encoding of an unsigned integer below `2 ^ 256`;
used to build concrete well-formed log entries. -/
def encodeWord (n : Nat) : List Nat :=
  (List.range 32).map (fun i => n / 256 ^ (31 - i) % 256)

/-- The failure modes of web3's `process_log` for this event ABI. -/
inductive DecodeErr where
  | mismatchedSignature
  | topicCount
  | insufficientData
deriving DecidableEq, Repr

/-- Arguments decoded from a `TokensLocked` log by web3's `process_log`. -/
structure DecodedArgs where
  token : Nat
  sender : Nat
  recipient : Nat
  amount : Nat
  destinationChainId : Nat
deriving DecidableEq, Repr

/-- web3's `process_log` specialised to the `TokensLocked` ABI from
src/script.py: checks the selector topic, the indexed-topic count, and the
payload length, then decodes the two indexed address topics and the three
non-indexed words `(recipient : address, amount : uint256,
destinationChainId : uint256)` from the front of the data payload. -/
def process_log (selector : Nat) (log : LogReceipt) : Except DecodeErr DecodedArgs :=
  match log.topics with
  | [] => .error .mismatchedSignature
  | t0 :: rest =>
    if t0 ≠ selector then .error .mismatchedSignature
    else
      match rest with
      | [t1, t2] =>
        if log.data.length < 96 then .error .insufficientData
        else
          .ok { token := t1 % 2 ^ 160
                sender := t2 % 2 ^ 160
                recipient := decodeWord (log.data.take 32) % 2 ^ 160
                amount := decodeWord ((log.data.drop 32).take 32)
                destinationChainId := decodeWord ((log.data.drop 64).take 32) }
      | _ => .error .topicCount

/-- The structured record built by `parse_tokens_locked_event` (the Python
dictionary literal at src/script.py lines 128-139). The `amount` field is a
string: the source applies `str(...)` to the decoded integer. -/
structure LockedRecord where
  transactionHash : List Nat
  blockNumber : Nat
  event : String
  token : Nat
  sender : Nat
  recipient : Nat
  amount : String
  destinationChainId : Nat
deriving DecidableEq, Repr

/-- Embedding of `EventParser.parse_tokens_locked_event`: decode via `process_log`; on
success build the structured record with `amount` converted by `str` (here
`Nat.repr`, the decimal representation); the blanket `except` clause returns
the empty dictionary, embedded as `none`. -/
def parse_tokens_locked_event (selector : Nat) (log : LogReceipt) :
    Option LockedRecord :=
  match process_log selector log with
  | .error _ => none
  | .ok d =>
    some { transactionHash := log.transactionHash
           blockNumber := log.blockNumber
           event := "TokensLocked"
           token := d.token
           sender := d.sender
           recipient := d.recipient
           amount := Nat.repr d.amount
           destinationChainId := d.destinationChainId }

/-! ### Decimal strings

`decimalVal` reads a string of decimal digits back into the number it
denotes; it is the specification-side meaning of "the decimal-string
representation", used to state that serialising the amount loses no
precision. -/

/-- Value denoted by a list of decimal digit characters (most significant
first). -/
def decimalVal (cs : List Char) : Nat :=
  cs.foldl (fun acc c => acc * 10 + (c.toNat - 48)) 0

/-! ### Delivery client (src/script.py, `RelayerService`)

`RelayerService.__init__` builds a `requests.Session`, constructs
`Retry(total=5, backoff_factor=1, status_forcelist=[502, 503, 504])` and
mounts it (via an `HTTPAdapter`) for the URL prefix `'https://'` only;
`relay_transaction_data` performs `session.post(...)`, calls
`raise_for_status()`, returns `True` on success and `False` on any
`requests.exceptions.RequestException`.

The retry behaviour is urllib3's, embedded per its documented semantics:
* `total` is the number of retries allowed, so up to `total + 1` requests;
* a response status triggers a retry only if the method is in
  `allowed_methods` (default `{HEAD, GET, PUT, DELETE, OPTIONS, TRACE}`,
  which does NOT contain POST) and the status is in `status_forcelist`;
* connect-phase failures are retried for any method; read-phase failures
  only when `read` is not `False` and the method is retryable;
* the backoff before retry number `k` (1-based) is `0` for `k = 1` and
  `backoff_factor * 2 ^ (k - 1)` afterwards;
* a `requests.Session` mounts default `HTTPAdapter()`s for `'http://'` and
  `'https://'` with `max_retries = Retry(0, read=False)`: zero retries.
-/

/-- What the network does on one HTTP attempt: a response with a status
code, a connect-phase failure, or a read-phase failure. -/
inductive AttemptOutcome where
  | status (code : Nat)
  | connectFailure
  | readFailure
deriving DecidableEq, Repr

/-- The urllib3 `Retry` configuration fields this program exercises. -/
structure RetryPolicy where
  total : Nat
  backoffFactor : Nat
  statusForcelist : List Nat
  allowedMethods : List String
  retryReadErrors : Bool
deriving DecidableEq, Repr

/-- urllib3's `Retry.DEFAULT_ALLOWED_METHODS`; note POST is absent. -/
def DEFAULT_ALLOWED_METHODS : List String :=
  ["HEAD", "GET", "PUT", "DELETE", "OPTIONS", "TRACE"]

/-- urllib3 `Retry._is_method_retryable`. -/
def isMethodRetryable (r : RetryPolicy) (method : String) : Bool :=
  r.allowedMethods.contains method

/-- urllib3 `Retry.is_retry` for a response status (no Retry-After header in
the scenarios under study): method must be retryable and the status must be
in the forcelist. -/
def isRetryStatus (r : RetryPolicy) (method : String) (code : Nat) : Bool :=
  isMethodRetryable r method && r.statusForcelist.contains code

/-- urllib3 `Retry.get_backoff_time` after `failures` consecutive failed
attempts: `0` before the first retry, else `backoff_factor * 2 ^ (failures - 1)`. -/
def getBackoffTime (r : RetryPolicy) (failures : Nat) : Nat :=
  if failures ≤ 1 then 0 else r.backoffFactor * 2 ^ (failures - 1)

/-- Outcome of the adapter-level request loop as surfaced to requests. -/
inductive UrlopenResult where
  | response (code : Nat)
  | maxRetryError
  | readError
deriving DecidableEq, Repr

/-- Trace of one `session.post`: how many HTTP attempts were made, the
backoff delays slept between successive attempts, and the final outcome. -/
structure SendTrace where
  attempts : Nat
  delays : List Nat
  result : UrlopenResult
deriving DecidableEq, Repr

/-- urllib3 `HTTPConnectionPool.urlopen` with a `Retry` object: make the
attempt, and on a retryable failure decrement the remaining retry budget
(raising `MaxRetryError` when it is exhausted), sleep the backoff, and try
again. `world i` is the network's behaviour on attempt `i` (0-based);
`remaining` starts at `Retry.total`. -/
def urlopenLoop (r : RetryPolicy) (method : String) (world : Nat → AttemptOutcome) :
    Nat → Nat → SendTrace
  | remaining, i =>
    match world i with
    | .status code =>
      if isRetryStatus r method code then
        match remaining with
        | 0 => ⟨i + 1, [], .maxRetryError⟩
        | remaining' + 1 =>
          let rest := urlopenLoop r method world remaining' (i + 1)
          ⟨rest.attempts, getBackoffTime r (i + 1) :: rest.delays, rest.result⟩
      else ⟨i + 1, [], .response code⟩
    | .connectFailure =>
      match remaining with
      | 0 => ⟨i + 1, [], .maxRetryError⟩
      | remaining' + 1 =>
        let rest := urlopenLoop r method world remaining' (i + 1)
        ⟨rest.attempts, getBackoffTime r (i + 1) :: rest.delays, rest.result⟩
    | .readFailure =>
      if r.retryReadErrors && isMethodRetryable r method then
        match remaining with
        | 0 => ⟨i + 1, [], .maxRetryError⟩
        | remaining' + 1 =>
          let rest := urlopenLoop r method world remaining' (i + 1)
          ⟨rest.attempts, getBackoffTime r (i + 1) :: rest.delays, rest.result⟩
      else ⟨i + 1, [], .readError⟩

/-- URL scheme of the configured relayer endpoint. -/
inductive Scheme where
  | http
  | https
deriving DecidableEq, Repr

/-- The retry policy `RelayerService.__init__` mounts for `'https://'`:
`Retry(total=5, backoff_factor=1, status_forcelist=[502, 503, 504])`. -/
def mountedRetries : RetryPolicy :=
  ⟨5, 1, [502, 503, 504], DEFAULT_ALLOWED_METHODS, true⟩

/-- The policy of the default adapters a `requests.Session` starts with:
`HTTPAdapter(max_retries=0)`, i.e. `Retry(0, read=False)`. -/
def defaultAdapterRetries : RetryPolicy :=
  ⟨0, 0, [], DEFAULT_ALLOWED_METHODS, false⟩

/-- Adapter selection by longest matching mounted prefix: the custom retry
adapter is mounted at `'https://'` only, so plain-http URLs keep the
session's default adapter. -/
def adapterRetries : Scheme → RetryPolicy
  | .https => mountedRetries
  | .http => defaultAdapterRetries

/-- One `session.post(self.api_url, ...)` as performed by
`relay_transaction_data`: a POST through the adapter mounted for the URL's
scheme. -/
def sessionPost (scheme : Scheme) (world : Nat → AttemptOutcome) : SendTrace :=
  urlopenLoop (adapterRetries scheme) "POST" world (adapterRetries scheme).total 0

/-- Embedding of `RelayerService.relay_transaction_data`: POST the record, call
`raise_for_status()` (which raises for statuses in `[400, 600)`), return
`True` on success; every `requests.exceptions.RequestException` — HTTP
error, connection error, retries exhausted — is caught and yields `False`.
(The `response.json()` call on the success path is taken to succeed, as the
claims only concern status- and connection-level behaviour.) -/
def relay_transaction_data (scheme : Scheme) (world : Nat → AttemptOutcome) : Bool :=
  match (sessionPost scheme world).result with
  | .response code => !(400 ≤ code && code < 600)
  | .maxRetryError => false
  | .readError => false

/-! ### Orchestrator (src/script.py, `BridgeEventListener` and `main`)

`start_listening` is an infinite `while True` supervision loop:
connect → validate the contract address (`ValueError` if invalid) → bind the
contract and create the event filter → inner poll loop
(`while is_connected(): for event in get_new_entries(): _event_handler(event);
sleep(5)`). Any exception escaping the inner block is caught, 30 seconds are
slept, and the outer loop retries; when the inner `while` exits because the
liveness check turns false, the outer loop retries immediately.
`_event_handler` parses the log and, only when parsing produced a non-empty
record, calls `relay_transaction_data` — whose boolean result is ignored.

The embedding runs the loop on a mocked environment (`ListenerWorld`) with
explicit fuel for the two unbounded loops and produces the list of
observable events. -/

/-- What happened to one log entry inside the poll loop. -/
inductive DeliveryOutcome where
  | delivered
  | deliveryFailed
  | skippedBadLog
deriving DecidableEq, Repr

/-- Embedding of `BridgeEventListener._event_handler`: parse, skip falsy (empty) parse
results, otherwise relay; the relayer's boolean result is ignored, so a
failed delivery is merely observed (logged) and the entry dropped. -/
def event_handler (selector : Nat) (relay : LockedRecord → Bool)
    (log : LogReceipt) : DeliveryOutcome :=
  match parse_tokens_locked_event selector log with
  | none => .skippedBadLog
  | some r => if relay r then .delivered else .deliveryFailed

/-- Observable events of the supervision loop. -/
inductive LoopEvent where
  | connectAttempt (ok : Bool)
  | invalidAddress
  | subscribeFailed
  | subscribed
  | batch (outcomes : List DeliveryOutcome)
  | pollSleep (secs : Nat)
  | livenessLost
  | cooldown (secs : Nat)
deriving DecidableEq, Repr

/-- Mocked environment for one run of `start_listening`. -/
structure ListenerWorld where
  connectOk : Nat → Bool
  addressValid : Bool
  subscribeOk : Nat → Bool
  live : Nat → Nat → Bool
  batches : Nat → Nat → List LogReceipt
  relayOk : LockedRecord → Bool

/-- The inner poll loop of iteration `k`:
`while is_connected(): for event in get_new_entries(): _event_handler(event);
time.sleep(5)`. Exits (without raising) when the liveness check fails. -/
def innerPoll (selector : Nat) (live : Nat → Bool)
    (batches : Nat → List LogReceipt) (relay : LockedRecord → Bool) :
    Nat → Nat → List LoopEvent
  | 0, _ => []
  | fuel + 1, j =>
    if live j then
      .batch ((batches j).map (event_handler selector relay)) ::
        .pollSleep 5 :: innerPoll selector live batches relay fuel (j + 1)
    else [.livenessLost]

/-- The outer `while True` loop of `start_listening`: a failed `connect()`
raises `ConnectionError`, an invalid configured contract address raises
`ValueError`, a failed contract bind/filter creation raises; each is caught
by the blanket `except`, which sleeps the 30-second cooldown and retries.
A normal inner-loop exit (liveness lost) retries without cooldown. -/
def start_listening (w : ListenerWorld) (selector innerFuel : Nat) :
    Nat → Nat → List LoopEvent
  | 0, _ => []
  | fuel + 1, k =>
    if w.connectOk k then
      .connectAttempt true ::
        (if ¬w.addressValid then
          .invalidAddress :: .cooldown 30 :: start_listening w selector innerFuel fuel (k + 1)
         else if ¬w.subscribeOk k then
          .subscribeFailed :: .cooldown 30 :: start_listening w selector innerFuel fuel (k + 1)
         else
          .subscribed ::
            (innerPoll selector (w.live k) (w.batches k) w.relayOk innerFuel 0 ++
             start_listening w selector innerFuel fuel (k + 1)))
    else
      .connectAttempt false :: .cooldown 30 ::
        start_listening w selector innerFuel fuel (k + 1)

/-- Erase the per-entry delivery results from an event, keeping the control
flow and the batch sizes; used to state that delivery outcomes cannot
influence the loop. -/
def eventShape : LoopEvent → LoopEvent
  | .batch l => .batch (l.map fun _ => .delivered)
  | e => e

/-- The cooldown durations slept before the first successful subscription
in a trace. -/
def cooldownsBeforeSubscribed (tr : List LoopEvent) : List Nat :=
  (tr.takeWhile fun e => decide (e ≠ .subscribed)).filterMap fun e =>
    match e with
    | .cooldown s => some s
    | _ => none

/-- The required environment variables checked by `main`
(src/script.py lines 239-243). -/
def required_vars : List String :=
  ["SOURCE_CHAIN_WSS_URL", "BRIDGE_CONTRACT_ADDRESS", "DESTINATION_RELAYER_API_URL"]

/-- Truth of `not os.getenv(var)`: true when the variable is unset or empty. -/
def envMissing (env : String → Option String) (v : String) : Bool :=
  match env v with
  | none => true
  | some s => s.isEmpty

/-- Result of `main`: either startup aborts with the two logged error lines
(the function returns before any component is built), or the listener runs. -/
inductive MainResult where
  | startupAbort (messages : List String)
  | enteredListener (trace : List LoopEvent)

/-- Embedding of `main` (src/script.py lines 236-254): if any required environment
variable is unset or empty, log the two error lines and return — the
listener is never constructed and `start_listening` never runs; otherwise
build the config and enter the supervision loop. -/
def main (env : String → Option String) (w : ListenerWorld)
    (selector innerFuel fuel : Nat) : MainResult :=
  if required_vars.any (envMissing env) then
    .startupAbort
      ["One or more required environment variables are missing. Please check your .env file.",
       "Required: SOURCE_CHAIN_WSS_URL, BRIDGE_CONTRACT_ADDRESS, DESTINATION_RELAYER_API_URL"]
  else
    .enteredListener (start_listening w selector innerFuel fuel 0)

/-! ### Chain connector (src/script.py, `BlockchainConnector.get_contract`) -/

/-- Failure modes of `get_contract`: `ConnectionError` when not connected,
and the `ValueError` web3's `to_checksum_address` raises on a malformed
address (the spec's `ValidationError`). -/
inductive ConnectorError where
  | connectionError
  | validationError
deriving DecidableEq, Repr

/-- A bound contract handle: the checksummed address with the ABI. -/
structure Contract where
  address : String
  abi : String
deriving DecidableEq, Repr

/-- Embedding of `BlockchainConnector.get_contract`: raises `ConnectionError` when
`is_connected()` is false; otherwise `to_checksum_address(address)`
validates the address — raising for a string that is not a well-formed
chain address — and the contract binds the ABI to the checksummed address.
`isAddr` and `checksum` parametrise web3's address-validation and
checksumming primitives. -/
def get_contract (connected : Bool) (isAddr : String → Bool)
    (checksum : String → String) (address abi : String) :
    Except ConnectorError Contract :=
  if ¬connected then .error .connectionError
  else if ¬isAddr address then .error .validationError
  else .ok ⟨checksum address, abi⟩

/-- A concrete well-formed log used by several witnesses: selector topic 7,
indexed topics 1 and 2, payload encoding
`(recipient := 3, amount := 4, destinationChainId := 5)`. -/
def goodLog : LogReceipt :=
  ⟨[7, 1, 2], encodeWord 3 ++ encodeWord 4 ++ encodeWord 5, [9], 1⟩

/-- A concrete malformed log (a single topic) used by the C4 witness. -/
def badLog : LogReceipt := ⟨[7], [], [1], 2⟩

/-- The record `goodLog` parses to. -/
def goodRecord : LockedRecord :=
  ⟨[9], 1, "TokensLocked", 1, 2, 3, "4", 5⟩

/-- The connector mock of the C6 scenario: `connect()` fails on its first
three calls and succeeds afterwards; the contract address is valid, the
subscription succeeds, and the inner loop exits at once. -/
def threeFailWorld : ListenerWorld :=
  ⟨fun k => decide (3 ≤ k), true, fun _ => true, fun _ _ => false,
   fun _ _ => [], fun _ => false⟩

/-! ### Unit converter (src/unit_converter.py)

`convert_eth_unit` computes with Python's `decimal` module under the default
context: 28 significant digits of precision, rounding half-to-even. Every
`ETH_UNITS` factor is `Decimal('1eK')` — coefficient 1, exponent `K` — so
multiplying by a factor yields the exact product with the same coefficient
and the exponent raised by `K`, dividing lowers it by `K`, and in both cases
the context then rounds the coefficient to at most 28 significant digits
(half-even, raising the exponent by the digits dropped). `Decimal(str(x))`
constructs the value exactly (constructors do not round). The claims compare
results with `==`, which is numeric equality, embedded here via `toRat`.
The embedding covers the nonnegative integer inputs the claims use. -/

/-- A nonnegative Python `Decimal`: coefficient times `10 ^ exp`. -/
structure PyDecimal where
  coeff : Nat
  exp : Int
deriving DecidableEq, Repr

/-- Precision `getcontext().prec` of the default decimal context. -/
def decContextPrec : Nat := 28

/-- Number of decimal digits of a coefficient (via the executable decimal
digit expansion; 0 has one digit). -/
def numDigits (n : Nat) : Nat :=
  (Nat.toDigits 10 n).length

/-- Quotient `m / p` rounded half-to-even (`ROUND_HALF_EVEN`, the default context
rounding), for `p = 10 ^ k`. -/
def roundHalfEven (m p : Nat) : Nat :=
  let q := m / p
  let r := m % p
  if 2 * r < p then q
  else if p < 2 * r then q + 1
  else if q % 2 = 0 then q else q + 1

/-- Default-context rounding of an exact result: when the coefficient has
more than `prec` digits, drop the excess digits (rounding half-even) and
raise the exponent accordingly. -/
def roundToContext (d : PyDecimal) : PyDecimal :=
  if numDigits d.coeff ≤ decContextPrec then d
  else
    let k := numDigits d.coeff - decContextPrec
    ⟨roundHalfEven d.coeff (10 ^ k), d.exp + k⟩

/-- Table `ETH_UNITS` of src/unit_converter.py: each factor `Decimal('1eK')` is
represented by its exponent `K` (wei `1e0` … ether `1e18`). -/
def ETH_UNITS : List (String × Int) :=
  [("wei", 0), ("kwei", 3), ("mwei", 6), ("gwei", 9),
   ("szabo", 12), ("finney", 15), ("ether", 18)]

/-- Multiplication by the unit factor `Decimal('1eK')` under the default
context. -/
def decMulPow10 (d : PyDecimal) (k : Int) : PyDecimal :=
  roundToContext ⟨d.coeff, d.exp + k⟩

/-- Division by the unit factor `Decimal('1eK')` under the default
context. -/
def decDivPow10 (d : PyDecimal) (k : Int) : PyDecimal :=
  roundToContext ⟨d.coeff, d.exp - k⟩

/-- Failure modes of `convert_eth_unit` (the two `ValueError` raises). -/
inductive UnitError where
  | invalidFromUnit
  | invalidToUnit
deriving DecidableEq, Repr

/-- Python `str.lower()` for the ASCII unit names in play. -/
def strLower (s : String) : String :=
  ⟨s.data.map Char.toLower⟩

/-- Unit lookup after `.lower()`, as in `ETH_UNITS[from_unit_lower]`. -/
def lookupUnit (u : String) : Option Int :=
  (ETH_UNITS.find? (fun p => p.1 == strLower u)).map (·.2)

/-- Embedding of `convert_eth_unit` for a nonnegative integer `value`: lowercase and
validate both units (`from_unit` first), construct `Decimal(str(value))`
exactly, multiply by the source-unit factor, divide by the target-unit
factor. -/
def convert_eth_unit (value : Nat) (from_unit to_unit : String) :
    Except UnitError PyDecimal :=
  match lookupUnit from_unit with
  | none => .error .invalidFromUnit
  | some kf =>
    match lookupUnit to_unit with
    | none => .error .invalidToUnit
    | some kt =>
      let value_decimal : PyDecimal := ⟨value, 0⟩
      let value_in_wei := decMulPow10 value_decimal kf
      .ok (decDivPow10 value_in_wei kt)

/-- Numeric value of a decimal, for the `==` comparisons of the claim. -/
def PyDecimal.toRat (d : PyDecimal) : ℚ :=
  (d.coeff : ℚ) * (10 : ℚ) ^ d.exp

theorem decimalVal_foldl_shift (cs : List Char) (a : Nat) :
    cs.foldl (fun acc c => acc * 10 + (c.toNat - 48)) a =
      a * 10 ^ cs.length + decimalVal cs := by
  induction cs generalizing a with
  | nil => simp [decimalVal]
  | cons c cs ih =>
    simp only [List.foldl_cons, List.length_cons, decimalVal]
    rw [ih (a * 10 + (c.toNat - 48)), ih (0 * 10 + (c.toNat - 48))]
    ring

theorem decimalVal_cons (c : Char) (l : List Char) :
    decimalVal (c :: l) = (c.toNat - 48) * 10 ^ l.length + decimalVal l := by
  simp only [decimalVal, List.foldl_cons]
  rw [decimalVal_foldl_shift]
  ring_nf
  rfl

theorem digitChar_val (n : Nat) (h : n < 10) :
    (Nat.digitChar n).toNat - 48 = n := by
  interval_cases n <;> rfl

theorem digitChar_isDigit (n : Nat) (h : n < 10) :
    (Nat.digitChar n).isDigit = true := by
  interval_cases n <;> rfl

theorem toDigitsCore_val (f : Nat) :
    ∀ n l, n < 10 ^ f →
      decimalVal (Nat.toDigitsCore 10 f n l) = n * 10 ^ l.length + decimalVal l := by
  induction f with
  | zero =>
    intro n l hn
    interval_cases n
    simp [Nat.toDigitsCore]
  | succ f ih =>
    intro n l hn
    by_cases h10 : n / 10 = 0
    · have hlt : n < 10 := by omega
      simp only [Nat.toDigitsCore, h10, if_true]
      have hm : n % 10 = n := Nat.mod_eq_of_lt hlt
      rw [decimalVal_cons, hm, digitChar_val n hlt]
    · have hdiv : n / 10 < 10 ^ f := by
        rw [Nat.div_lt_iff_lt_mul (by norm_num)]
        calc n < 10 ^ (f + 1) := hn
        _ = 10 ^ f * 10 := by ring
      simp only [Nat.toDigitsCore, h10, if_false]
      rw [ih (n / 10) (Nat.digitChar (n % 10) :: l) hdiv]
      have hmod : n % 10 < 10 := Nat.mod_lt _ (by norm_num)
      rw [decimalVal_cons, digitChar_val (n % 10) hmod, List.length_cons]
      have key : n / 10 * 10 ^ (l.length + 1) + (n % 10 * 10 ^ l.length + decimalVal l)
          = (10 * (n / 10) + n % 10) * 10 ^ l.length + decimalVal l := by ring
      rw [key, Nat.div_add_mod]

theorem toDigitsCore_digits (f : Nat) :
    ∀ n l, (∀ c ∈ l, c.isDigit = true) →
      ∀ c ∈ Nat.toDigitsCore 10 f n l, c.isDigit = true := by
  induction f with
  | zero => intro n l hl; simpa [Nat.toDigitsCore] using hl
  | succ f ih =>
    intro n l hl
    by_cases h10 : n / 10 = 0
    · simp only [Nat.toDigitsCore, h10, if_true]
      intro c hc
      rcases List.mem_cons.mp hc with h | h
      · subst h; exact digitChar_isDigit _ (Nat.mod_lt _ (by norm_num))
      · exact hl c h
    · simp only [Nat.toDigitsCore, h10, if_false]
      refine ih (n / 10) _ ?_
      intro c hc
      rcases List.mem_cons.mp hc with h | h
      · subst h; exact digitChar_isDigit _ (Nat.mod_lt _ (by norm_num))
      · exact hl c h

theorem repr_data_eq_toDigits (n : Nat) :
    (Nat.repr n).data = Nat.toDigits 10 n := rfl

theorem decimalVal_repr (n : Nat) : decimalVal (Nat.repr n).data = n := by
  rw [repr_data_eq_toDigits]
  have hn : n < 10 ^ (n + 1) :=
    lt_of_lt_of_le (Nat.lt_pow_self (by norm_num) n)
      (Nat.pow_le_pow_right (by norm_num) (Nat.le_succ n))
  have := toDigitsCore_val (n + 1) n [] hn
  simpa [Nat.toDigits, decimalVal] using this

theorem repr_digits (n : Nat) : ∀ c ∈ (Nat.repr n).data, c.isDigit = true := by
  rw [repr_data_eq_toDigits]
  exact toDigitsCore_digits (n + 1) n [] (by simp)

theorem decodeWord_foldl_lt (bs : List Nat) :
    ∀ a, (∀ b ∈ bs, b < 256) →
      bs.foldl (fun acc b => acc * 256 + b) a < (a + 1) * 256 ^ bs.length := by
  induction bs with
  | nil => intro a _; simp
  | cons b bs ih =>
    intro a hb
    simp only [List.foldl_cons, List.length_cons]
    have h1 : bs.foldl (fun acc b => acc * 256 + b) (a * 256 + b) <
        (a * 256 + b + 1) * 256 ^ bs.length :=
      ih (a * 256 + b) (fun x hx => hb x (List.mem_cons_of_mem _ hx))
    have hb0 : b < 256 := hb b (List.mem_cons_self _ _)
    calc bs.foldl (fun acc b => acc * 256 + b) (a * 256 + b)
        < (a * 256 + b + 1) * 256 ^ bs.length := h1
      _ ≤ ((a + 1) * 256) * 256 ^ bs.length := by
          have : a * 256 + b + 1 ≤ (a + 1) * 256 := by nlinarith
          exact Nat.mul_le_mul_right _ this
      _ = (a + 1) * 256 ^ (bs.length + 1) := by ring

theorem decodeWord_lt (bs : List Nat) (h : ∀ b ∈ bs, b < 256) :
    decodeWord bs < 256 ^ bs.length := by
  simpa [decodeWord] using decodeWord_foldl_lt bs 0 h

/-- C1: for every raw log entry conforming to the TokensLocked schema (the
selector topic, two indexed topics, a ≥-96-byte payload of bytes), decoding
and then serialising preserves the amount field exactly: the produced
record's `amount` is the decimal string `Nat.repr` of the decoded unsigned
integer (a string, never a floating type), every character is a decimal
digit, the string denotes exactly the decoded value (no precision loss), and
the decoded value ranges over all of `[0, 2^256)`. -/
theorem parse_tokens_locked_amount_exact
    (selector t1 t2 : Nat) (data txh : List Nat) (bn : Nat)
    (hlen : data.length = 96) (hbytes : ∀ b ∈ data, b < 256) :
    ∃ r, parse_tokens_locked_event selector ⟨[selector, t1, t2], data, txh, bn⟩ = some r ∧
      r.amount = Nat.repr (decodeWord ((data.drop 32).take 32)) ∧
      decimalVal r.amount.data = decodeWord ((data.drop 32).take 32) ∧
      (∀ c ∈ r.amount.data, c.isDigit = true) ∧
      decodeWord ((data.drop 32).take 32) < 2 ^ 256 := by
  have hp : parse_tokens_locked_event selector ⟨[selector, t1, t2], data, txh, bn⟩ =
      some { transactionHash := txh
             blockNumber := bn
             event := "TokensLocked"
             token := t1 % 2 ^ 160
             sender := t2 % 2 ^ 160
             recipient := decodeWord (data.take 32) % 2 ^ 160
             amount := Nat.repr (decodeWord ((data.drop 32).take 32))
             destinationChainId := decodeWord ((data.drop 64).take 32) } := by
    simp [parse_tokens_locked_event, process_log, hlen]
  refine ⟨_, hp, rfl, decimalVal_repr _, repr_digits _, ?_⟩
  have hsub : ∀ b ∈ (data.drop 32).take 32, b < 256 := fun b hb =>
    hbytes b (List.mem_of_mem_drop (List.mem_of_mem_take hb))
  have hslen : ((data.drop 32).take 32).length = 32 := by
    simp [List.length_take, List.length_drop, hlen]
  have := decodeWord_lt _ hsub
  rw [hslen] at this
  calc decodeWord ((data.drop 32).take 32) < 256 ^ 32 := this
    _ = 2 ^ 256 := by norm_num

/-- Witness for C1 at amount `2 ^ 200`: a concrete schema-conforming log
whose payload encodes `(recipient := 51, amount := 2 ^ 200,
destinationChainId := 137)` decodes to a record whose amount string is the
exact 61-digit decimal representation of `2 ^ 200`. -/
theorem parse_tokens_locked_amount_exact_witness :
    ∃ r, parse_tokens_locked_event 3735928559
        ⟨[3735928559, 17, 34],
         encodeWord 51 ++ encodeWord (2 ^ 200) ++ encodeWord 137, [171], 5⟩ = some r ∧
      r.amount = "1606938044258990275541962092341162602522202993782792835301376" := by
  obtain ⟨r, hp, hamt, -, -, -⟩ :=
    parse_tokens_locked_amount_exact 3735928559 17 34
      (encodeWord 51 ++ encodeWord (2 ^ 200) ++ encodeWord 137) [171] 5
      (by decide) (by decide)
  refine ⟨r, hp, ?_⟩
  rw [hamt]
  decide

/-- C2: the claimed retry behaviour fails on the code. Against an https
endpoint that answers 503 twice and then 200, the POST makes exactly one
attempt, sleeps no backoff, surfaces the 503, and `relay_transaction_data`
returns failure — POST is not in urllib3's default `allowed_methods`, so
`status_forcelist` never triggers for this program's requests. Moreover, for
connection-phase failures (which ARE retried) the code makes 6 attempts
(`total=5` retries plus the initial attempt), not at most 5, and the slept
delays are `0, 2, 4, 8, 16`, not `1, 2, 4, 8, …`. -/
theorem relay_503_twice_then_200_fails_first_attempt :
    sessionPost .https (fun i => .status (if i < 2 then 503 else 200)) =
      ⟨1, [], .response 503⟩ ∧
    relay_transaction_data .https (fun i => .status (if i < 2 then 503 else 200)) = false ∧
    sessionPost .https (fun _ => .connectFailure) =
      ⟨6, [0, 2, 4, 8, 16], .maxRetryError⟩ ∧
    relay_transaction_data .https (fun _ => .connectFailure) = false := by
  refine ⟨rfl, rfl, ?_, rfl⟩
  decide

theorem post_not_in_allowed : DEFAULT_ALLOWED_METHODS.contains "POST" = false := by
  decide

theorem isRetryStatus_post (r : RetryPolicy)
    (hr : r.allowedMethods = DEFAULT_ALLOWED_METHODS) (c : Nat) :
    isRetryStatus r "POST" c = false := by
  unfold isRetryStatus isMethodRetryable
  rw [hr, post_not_in_allowed]
  rfl

theorem urlopenLoop_status_noretry (r : RetryPolicy) (method : String)
    (world : Nat → AttemptOutcome) (remaining i code : Nat)
    (hw : world i = .status code) (hr : isRetryStatus r method code = false) :
    urlopenLoop r method world remaining i = ⟨i + 1, [], .response code⟩ := by
  cases remaining <;> simp [urlopenLoop, hw, hr]

theorem urlopenLoop_connect_zero (r : RetryPolicy) (method : String)
    (world : Nat → AttemptOutcome) (i : Nat) (hw : world i = .connectFailure) :
    urlopenLoop r method world 0 i = ⟨i + 1, [], .maxRetryError⟩ := by
  simp [urlopenLoop, hw]

theorem urlopenLoop_read_noretry (r : RetryPolicy) (method : String)
    (world : Nat → AttemptOutcome) (remaining i : Nat)
    (hw : world i = .readFailure)
    (hr : (r.retryReadErrors && isMethodRetryable r method) = false) :
    urlopenLoop r method world remaining i = ⟨i + 1, [], .readError⟩ := by
  cases remaining <;> simp [urlopenLoop, hw, hr]

/-- C3: for every scheme and network behaviour whose first response is a
non-transient failure status (a 4xx/5xx other than 502/503/504), `send`
makes exactly one HTTP attempt, sleeps no backoff, and fails (the
`DeliveryError` outcome: `relay_transaction_data` returns `False`). -/
theorem relay_non_transient_fails_immediately
    (scheme : Scheme) (world : Nat → AttemptOutcome) (code : Nat)
    (hw : world 0 = .status code) (h4 : 400 ≤ code) (h6 : code < 600)
    (_hns : code ∉ [502, 503, 504]) :
    sessionPost scheme world = ⟨1, [], .response code⟩ ∧
    relay_transaction_data scheme world = false := by
  have hf : isRetryStatus (adapterRetries scheme) "POST" code = false :=
    isRetryStatus_post _ (by cases scheme <;> rfl) code
  have hpost : sessionPost scheme world = ⟨1, [], .response code⟩ :=
    urlopenLoop_status_noretry (adapterRetries scheme) "POST" world
      (adapterRetries scheme).total 0 code hw hf
  refine ⟨hpost, ?_⟩
  simp only [relay_transaction_data, hpost]
  simp [h4, h6]

/-- Witness for C3: a 404 from the endpoint (over https) yields one attempt
and a failed delivery. -/
theorem relay_non_transient_fails_immediately_witness :
    sessionPost .https (fun _ => .status 404) = ⟨1, [], .response 404⟩ ∧
    relay_transaction_data .https (fun _ => .status 404) = false :=
  relay_non_transient_fails_immediately .https (fun _ => .status 404) 404
    rfl (by norm_num) (by norm_num) (by decide)

/-- C10: the retry adapter is mounted only for `'https://'`; a send to a
plain-http relayer URL keeps the session's default zero-retry adapter, so
every call makes exactly one HTTP attempt with no backoff, whatever the
network does — and in particular a 502/503/504 response is not retried and
the delivery fails. -/
theorem relay_http_scheme_never_retries (world : Nat → AttemptOutcome) :
    (sessionPost .http world).attempts = 1 ∧
    (sessionPost .http world).delays = [] ∧
    (∀ code, world 0 = .status code → code ∈ [502, 503, 504] →
      relay_transaction_data .http world = false) := by
  cases hres : world 0 with
  | status code =>
    have hpost : sessionPost .http world = ⟨1, [], .response code⟩ :=
      urlopenLoop_status_noretry defaultAdapterRetries "POST" world 0 0 code hres
        (isRetryStatus_post _ rfl code)
    refine ⟨by rw [hpost], by rw [hpost], fun c hc hmem => ?_⟩
    injection hc with h
    subst h
    simp only [List.mem_cons, List.not_mem_nil, or_false] at hmem
    rcases hmem with h | h | h <;> subst h <;>
      simp [relay_transaction_data, hpost]
  | connectFailure =>
    have hpost : sessionPost .http world = ⟨1, [], .maxRetryError⟩ :=
      urlopenLoop_connect_zero defaultAdapterRetries "POST" world 0 hres
    refine ⟨by rw [hpost], by rw [hpost], fun c hc hmem => ?_⟩
    exact absurd hc (by simp)
  | readFailure =>
    have hpost : sessionPost .http world = ⟨1, [], .readError⟩ :=
      urlopenLoop_read_noretry defaultAdapterRetries "POST" world 0 0 hres rfl
    refine ⟨by rw [hpost], by rw [hpost], fun c hc hmem => ?_⟩
    exact absurd hc (by simp)

/-- Witness for C10: a plain-http endpoint answering 503 gets exactly one
attempt and the delivery fails with no retry. -/
theorem relay_http_scheme_never_retries_witness :
    (sessionPost .http (fun _ => .status 503)).attempts = 1 ∧
    relay_transaction_data .http (fun _ => .status 503) = false :=
  ⟨(relay_http_scheme_never_retries (fun _ => .status 503)).1,
   (relay_http_scheme_never_retries (fun _ => .status 503)).2.2 503 rfl (by decide)⟩

/-- C4: for every raw log entry whose shape does not match the schema
(wrong topic count, or a payload shorter than the 96 bytes the schema
requires), `process_log` fails with a decode error, the parser returns the
empty (falsy) result instead of raising, and the poll loop's per-entry
handler marks the entry skipped while every other entry of the same batch
is still processed. -/
theorem decode_failure_skipped_and_loop_continues
    (selector : Nat) (log : LogReceipt)
    (h : log.topics.length ≠ 3 ∨ log.data.length < 96) :
    (∃ e, process_log selector log = .error e) ∧
    parse_tokens_locked_event selector log = none ∧
    (∀ (relay : LockedRecord → Bool) (pre post : List LogReceipt),
      (pre ++ log :: post).map (event_handler selector relay) =
        pre.map (event_handler selector relay) ++
          .skippedBadLog :: post.map (event_handler selector relay)) := by
  have herr : ∃ e, process_log selector log = .error e := by
    rcases hl : log.topics with _ | ⟨t0, rest⟩
    · exact ⟨.mismatchedSignature, by simp [process_log, hl]⟩
    · by_cases h0 : t0 = selector
      · subst h0
        rcases hr : rest with _ | ⟨t1, _ | ⟨t2, _ | ⟨t3, rest3⟩⟩⟩
        · exact ⟨.topicCount, by simp [process_log, hl, hr]⟩
        · exact ⟨.topicCount, by simp [process_log, hl, hr]⟩
        · have hd : log.data.length < 96 := by
            rcases h with h | h
            · exact absurd (by rw [hl, hr]; rfl) h
            · exact h
          exact ⟨.insufficientData, by simp [process_log, hl, hr, hd]⟩
        · exact ⟨.topicCount, by simp [process_log, hl, hr]⟩
      · exact ⟨.mismatchedSignature, by simp [process_log, hl, h0]⟩
  obtain ⟨e, he⟩ := herr
  have hnone : parse_tokens_locked_event selector log = none := by
    simp [parse_tokens_locked_event, he]
  refine ⟨⟨e, he⟩, hnone, fun relay pre post => ?_⟩
  rw [List.map_append, List.map_cons]
  have : event_handler selector relay log = .skippedBadLog := by
    simp [event_handler, hnone]
  rw [this]

/-- Witness for C4: a log carrying only one topic is skipped, and a
well-formed log after it in the same batch is still delivered. -/
theorem decode_failure_skipped_and_loop_continues_witness :
    parse_tokens_locked_event 7 badLog = none ∧
    ([] ++ badLog :: [goodLog]).map (event_handler 7 fun _ => true) =
      [] ++ .skippedBadLog :: [goodLog].map (event_handler 7 fun _ => true) := by
  obtain ⟨-, hnone, hmap⟩ :=
    decode_failure_skipped_and_loop_continues 7 badLog (.inl (by decide))
  exact ⟨hnone, hmap (fun _ => true) [] [goodLog]⟩

theorem innerPoll_no_cooldown (selector : Nat) (live : Nat → Bool)
    (batches : Nat → List LogReceipt) (relay : LockedRecord → Bool) :
    ∀ fuel j s, LoopEvent.cooldown s ∉ innerPoll selector live batches relay fuel j := by
  intro fuel
  induction fuel with
  | zero => intro j s; simp [innerPoll]
  | succ fuel ih =>
    intro j s
    by_cases hl : live j
    · simpa [innerPoll, hl] using ih (j + 1) s
    · simp [innerPoll, hl]

theorem innerPoll_shape_independent (selector : Nat) (live : Nat → Bool)
    (batches : Nat → List LogReceipt) (r1 r2 : LockedRecord → Bool) :
    ∀ fuel j, (innerPoll selector live batches r1 fuel j).map eventShape =
      (innerPoll selector live batches r2 fuel j).map eventShape := by
  intro fuel
  induction fuel with
  | zero => intro j; rfl
  | succ fuel ih =>
    intro j
    by_cases hl : live j
    · simp only [innerPoll, hl, if_true, List.map_cons]
      rw [ih (j + 1)]
      congr 1
      simp [eventShape, List.map_map, Function.comp]
    · simp [innerPoll, hl]

/-- C5: in every execution of the poll loop, delivery failures are dropped
without affecting control flow: no cooldown (the `Reconnecting` wait) ever
occurs inside the poll loop, whatever the delivery results are; the loop's
event shape — which batches are polled, their sizes, the sleeps, and the
liveness-driven exit — is identical for any two delivery behaviours; and an
entry whose delivery fails is recorded as `deliveryFailed` (logged) and
dropped. Only the liveness check (a connection-level condition) ends
polling. -/
theorem delivery_failure_never_reconnects
    (selector : Nat) (live : Nat → Bool) (batches : Nat → List LogReceipt)
    (r1 r2 : LockedRecord → Bool) (fuel j : Nat) :
    (∀ s, LoopEvent.cooldown s ∉ innerPoll selector live batches r1 fuel j) ∧
    ((innerPoll selector live batches r1 fuel j).map eventShape =
      (innerPoll selector live batches r2 fuel j).map eventShape) ∧
    (∀ log r, parse_tokens_locked_event selector log = some r → r1 r = false →
      event_handler selector r1 log = .deliveryFailed) :=
  ⟨fun s => innerPoll_no_cooldown selector live batches r1 fuel j s,
   innerPoll_shape_independent selector live batches r1 r2 fuel j,
   fun log r hp hf => by simp [event_handler, hp, hf]⟩

/-- Witness for C5: with one well-formed log per batch and a relayer that
always fails, the poll loop never cools down and the failed entry is
recorded as a failed delivery. -/
theorem delivery_failure_never_reconnects_witness :
    LoopEvent.cooldown 30 ∉
      innerPoll 7 (fun _ => true) (fun _ => [goodLog]) (fun _ => false) 1 0 ∧
    event_handler 7 (fun _ => false) goodLog = .deliveryFailed :=
  ⟨(delivery_failure_never_reconnects 7 (fun _ => true) (fun _ => [goodLog])
      (fun _ => false) (fun _ => true) 1 0).1 30,
   (delivery_failure_never_reconnects 7 (fun _ => true) (fun _ => [goodLog])
      (fun _ => false) (fun _ => true) 1 0).2.2 goodLog goodRecord (by decide) rfl⟩

/-- C6 counterexample: with `connect` failing three times and then
succeeding, the orchestrator does NOT visit `Reconnecting` exactly twice
before `Subscribing` — the claimed count of 2 is false. -/
theorem three_connect_failures_not_two_cooldowns :
    ¬ (cooldownsBeforeSubscribed (start_listening threeFailWorld 0 1 8 0)).length = 2 := by
  decide

/-- C6 amended: with `connect` failing three times and then succeeding, the
orchestrator visits `Reconnecting` exactly three times before reaching
`Subscribing`, each visit waiting the fixed 30-unit cooldown. -/
theorem three_connect_failures_three_cooldowns :
    cooldownsBeforeSubscribed (start_listening threeFailWorld 0 1 8 0) = [30, 30, 30] ∧
    LoopEvent.subscribed ∈ start_listening threeFailWorld 0 1 8 0 := by
  decide

/-- C7: when any of the three required configuration variables is unset (or
empty), `main` logs the two descriptive error lines and returns before
building any component: the supervision loop — and with it any connection
attempt — is never entered, so a missing setting is a startup abort, never a
runtime retry condition. -/
theorem missing_config_aborts_startup
    (env : String → Option String) (w : ListenerWorld)
    (selector innerFuel fuel : Nat)
    (h : ∃ v ∈ required_vars, envMissing env v = true) :
    main env w selector innerFuel fuel =
      .startupAbort
        ["One or more required environment variables are missing. Please check your .env file.",
         "Required: SOURCE_CHAIN_WSS_URL, BRIDGE_CONTRACT_ADDRESS, DESTINATION_RELAYER_API_URL"] ∧
    (∀ tr, main env w selector innerFuel fuel ≠ .enteredListener tr) := by
  have hany : required_vars.any (envMissing env) = true := by
    rw [List.any_eq_true]
    obtain ⟨v, hv, hm⟩ := h
    exact ⟨v, hv, hm⟩
  constructor
  · simp [main, hany]
  · intro tr hcontra
    simp [main, hany] at hcontra

/-- Witness for C7: with an empty environment, startup aborts with the two
logged lines and the listener never runs. -/
theorem missing_config_aborts_startup_witness :
    main (fun _ => none) threeFailWorld 0 1 8 =
      .startupAbort
        ["One or more required environment variables are missing. Please check your .env file.",
         "Required: SOURCE_CHAIN_WSS_URL, BRIDGE_CONTRACT_ADDRESS, DESTINATION_RELAYER_API_URL"] ∧
    (∀ tr, main (fun _ => none) threeFailWorld 0 1 8 ≠ .enteredListener tr) :=
  missing_config_aborts_startup (fun _ => none) threeFailWorld 0 1 8
    ⟨"SOURCE_CHAIN_WSS_URL", by simp [required_vars], rfl⟩

/-- C8: `get_contract` fails with the `ConnectionError` outcome whenever the
handle is not connected; when connected it fails with the `ValidationError`
outcome exactly when the address is not a well-formed chain address, and
otherwise returns the contract handle binding the ABI schema to the
(checksummed) address. The source checks the connection first, so a
disconnected handle reports `ConnectionError` even if the address is also
malformed. -/
theorem get_contract_spec (connected : Bool) (isAddr : String → Bool)
    (checksum : String → String) (address abi : String) :
    (connected = false →
      get_contract connected isAddr checksum address abi = .error .connectionError) ∧
    (connected = true → isAddr address = false →
      get_contract connected isAddr checksum address abi = .error .validationError) ∧
    (connected = true → isAddr address = true →
      get_contract connected isAddr checksum address abi = .ok ⟨checksum address, abi⟩) := by
  refine ⟨fun hc => ?_, fun hc ha => ?_, fun hc ha => ?_⟩
  · simp [get_contract, hc]
  · simp [get_contract, hc, ha]
  · simp [get_contract, hc, ha]

/-- C9: the converter claims fail on the code. `convert(1, "ether", "wei")`
does equal `10 ^ 18`, but the identity `convert(x, u, u) == x` is violated:
at `x = 2 ^ 200` (61 significant digits) the default decimal context rounds
the coefficient of every arithmetic result to 28 significant digits, so the
wei→wei conversion returns `1606938044258990275541962092 × 10 ^ 33`, which
differs from `2 ^ 200` — contradicting the function's own docstring
("The converted value as a Decimal, preserving precision"). -/
theorem convert_identity_fails_at_2_pow_200 :
    convert_eth_unit 1 "ether" "wei" = .ok ⟨1, 18⟩ ∧
    PyDecimal.toRat ⟨1, 18⟩ = 10 ^ 18 ∧
    convert_eth_unit (2 ^ 200) "wei" "wei" =
      .ok ⟨1606938044258990275541962092, 33⟩ ∧
    PyDecimal.toRat ⟨1606938044258990275541962092, 33⟩ ≠ ((2 ^ 200 : Nat) : ℚ) := by
  refine ⟨rfl, by norm_num [PyDecimal.toRat], rfl, by norm_num [PyDecimal.toRat]⟩

/-- Witness for C8: the three behaviours at concrete inputs. -/
theorem get_contract_spec_witness :
    get_contract false (fun _ => true) (fun a => a) "0xabc" "abi" = .error .connectionError ∧
    get_contract true (fun _ => false) (fun a => a) "zzz" "abi" = .error .validationError ∧
    get_contract true (fun _ => true) (fun a => a) "0xabc" "abi" = .ok ⟨"0xabc", "abi"⟩ :=
  ⟨(get_contract_spec false (fun _ => true) id "0xabc" "abi").1 rfl,
   (get_contract_spec true (fun _ => false) id "zzz" "abi").2.1 rfl rfl,
   (get_contract_spec true (fun _ => true) id "0xabc" "abi").2.2 rfl rfl⟩

end EthMose
